import Mathlib

/-!
# glearn-cli: the Learn API client and the build / publish orchestration

A shallow embedding of `api/learn/build.go`, `api/learn/preview.go` and of the
request sequence of `app/cmd/build.go` / `app/cmd/publish.go`.

* Go `int` values (identifiers, HTTP status codes) are `Int`.
* The `uint8` attempts counter is a `Nat`; its decrement is taken modulo `2^8`.
* A Go function returning `(T, error)` returns a record of the value, the error
  as an `Option String` (`none` is the `nil` error) and the world afterwards; a
  returned pointer is an `Option` (`none` is `nil`).
* The HTTP transport and the JSON decoder are libraries outside the repository.
  The transport is an oracle held by `APIClient`; a response body is described
  by what `Decode` leaves in each of the three target shapes and by the error
  `Decode` returns.
* Side effects (requests sent, suspensions, the git push) are recorded, in
  order, in the `trace` of an explicit `World`.
-/

namespace Glearn

/-! ## Data model (`api/learn`) -/

/-- Go struct `Block` of `build.go`. -/
structure Block where
  ID : Int
  RepoName : String
  SyncErrors : List String
  Title : String
  CohortsUsing : List Int
  deriving DecidableEq, Repr

/-- Go struct `blockResponse` of `build.go`. -/
structure blockResponse where
  Blocks : List Block
  deriving DecidableEq, Repr

/-- Go struct `ReleaseResponse` of `build.go`. -/
structure ReleaseResponse where
  ReleaseID : Int
  deriving DecidableEq, Repr

/-- Go struct `S3Credentials` of `preview.go`. -/
structure S3Credentials where
  AccessKeyID : String
  SecretAccessKey : String
  KeyPrefix : String
  BucketName : String
  deriving DecidableEq, Repr

/-- Go struct `PreviewResponse` of `preview.go`. -/
structure PreviewResponse where
  ReleaseID : Int
  PreviewURL : String
  Errors : String
  Status : String
  S3Credentials : S3Credentials
  deriving DecidableEq, Repr

/-- The Go zero value `Block{}`. -/
def Block.zero : Block := ⟨0, "", [], "", []⟩

/-- The Go zero value `S3Credentials{}`. -/
def S3Credentials.zero : S3Credentials := ⟨"", "", "", ""⟩

/-- The Go zero value `PreviewResponse{}`. -/
def PreviewResponse.zero : PreviewResponse := ⟨0, "", "", "", S3Credentials.zero⟩

/-- Method `Block.Exists`: `b.ID != 0`. -/
def Block.Exists (b : Block) : Bool := b.ID != 0

/-! ## Transport -/

/-- Outcome of `json.NewDecoder(body).Decode(&target)` on a zero-valued target:
the target afterwards and the error returned. -/
structure Decoded (α : Type) where
  val : α
  err : Option String
  deriving DecidableEq, Repr

/-- A response body, seen through the three shapes the client decodes into. -/
structure Body where
  blocks : Decoded blockResponse
  release : Decoded ReleaseResponse
  preview : Decoded PreviewResponse
  deriving DecidableEq, Repr

/-- The part of `http.Response` the client reads. -/
structure Response where
  StatusCode : Int
  Body : Body
  deriving DecidableEq, Repr

/-- The requests the client builds, one constructor per endpoint. -/
inductive Request where
  /-- `GET /api/v1/blocks?repo_name=<repoName>` -/
  | findBlock (repoName : String)
  /-- `POST /api/v1/blocks` with body `{block: {repo_name}}` -/
  | createBlock (repoName : String)
  /-- `POST /api/v1/blocks/<blockID>/releases` -/
  | createRelease (blockID : Int)
  /-- `GET /api/v1/releases/<releaseID>/release_polling` -/
  | releasePolling (releaseID : Int)
  /-- `POST <endpoint>` with body `{s3_key}` -/
  | buildFromS3 (endpoint : String) (bucketKey : String)
  /-- `GET /api/v1/users/glearn_credentials` -/
  | credentials
  deriving DecidableEq, Repr

/-- Observable effects, in the order they happen. -/
inductive Event where
  | request (r : Request)
  | sleep (seconds : Nat)
  | gitPush (branch : String)
  | sendMetadata
  | notifySlack (err : String)
  deriving DecidableEq, Repr

/-- The outside world as far as the client changes it: how many requests were
handed to the transport so far, and the effects so far. -/
structure World where
  sent : Nat
  trace : List Event
  deriving DecidableEq, Repr

/-- Hand one request to the transport. -/
def World.send (w : World) (r : Request) : World :=
  ⟨w.sent + 1, w.trace ++ [Event.request r]⟩

/-- The effect of `time.Sleep(seconds * time.Second)`. -/
def World.sleep (w : World) (seconds : Nat) : World :=
  ⟨w.sent, w.trace ++ [Event.sleep seconds]⟩

/-- Go struct `APIClient`, reduced to what its methods can observe: whether
`url.Parse` of the blocks URL fails, the error of `http.NewRequest` for a
request, and the answer of `api.client.Do` to the request that is handed over
after `sent` earlier ones. -/
structure APIClient where
  urlParse : Option String
  NewRequest : Request → Option String
  Do : Nat → Request → Except String Response

/-- The message `fmt.Errorf("Error: response status: %d", code)`. -/
def statusError (code : Int) : String :=
  "Error: response status: " ++ toString code

/-- The message
`fmt.Errorf("Error: response status: %d, response body: %s", code, body)`. -/
def statusBodyError (code : Int) (body : String) : String :=
  "Error: response status: " ++ toString code ++ ", response body: " ++ body

/-- The message of the error returned when the attempts run out. -/
def retriesExhausted : String :=
  "Sorry, we are having trouble requesting your build from Learn. Please try again"

/-! ## `preview.go` -/

/-- What `PollForBuildResponse` hands back: the returned pointer, the returned
error, the value left in `*attempts`, and the world afterwards. -/
structure PollResult where
  resp : Option PreviewResponse
  err : Option String
  attempts : Nat
  world : World
  deriving DecidableEq, Repr

/-- The `uint8` statement `*attempts--`. -/
def decrAttempts (attempts : Nat) : Nat := (attempts + 255) % 256

/-- Number of further decrements before the counter reaches zero. -/
def pollMeasure (attempts : Nat) : Nat :=
  if attempts % 256 = 0 then 256 else attempts % 256

/-- Method `PollForBuildResponse(releaseID, attempts)`. -/
def PollForBuildResponse (api : APIClient) (releaseID : Int) (attempts : Nat) (w : World) :
    PollResult :=
  match api.NewRequest (Request.releasePolling releaseID) with
  | some err => ⟨none, some err, attempts, w⟩
  | none =>
    match api.Do w.sent (Request.releasePolling releaseID) with
    | Except.error err => ⟨none, some err, attempts, w.send (Request.releasePolling releaseID)⟩
    | Except.ok res =>
      if res.StatusCode ≠ 200 then
        ⟨none, some (statusBodyError res.StatusCode res.Body.preview.val.Errors), attempts,
          w.send (Request.releasePolling releaseID)⟩
      else
        match res.Body.preview.err with
        | some err => ⟨none, some err, attempts, w.send (Request.releasePolling releaseID)⟩
        | none =>
          if res.Body.preview.val.Status = "processing"
              ∨ res.Body.preview.val.Status = "pending" then
            if _h : decrAttempts attempts ≤ 0 then
              ⟨none, some retriesExhausted, decrAttempts attempts,
                w.send (Request.releasePolling releaseID)⟩
            else
              PollForBuildResponse api releaseID (decrAttempts attempts)
                ((w.send (Request.releasePolling releaseID)).sleep 2)
          else
            ⟨some res.Body.preview.val, none, attempts,
              w.send (Request.releasePolling releaseID)⟩
termination_by pollMeasure attempts
decreasing_by
  unfold pollMeasure decrAttempts at *
  split_ifs <;> omega

/-- What a method returning `(T, error)` hands back, with the world afterwards. -/
structure Call (α : Type) where
  val : α
  err : Option String
  world : World
  deriving DecidableEq, Repr

/-- Method `BuildReleaseFromS3(bucketKey, isDirectory)`. Marshalling the
`map[string]string` payload cannot fail. -/
def BuildReleaseFromS3 (api : APIClient) (bucketKey : String) (isDirectory : Bool) (w : World) :
    Call (Option PreviewResponse) :=
  let endpoint := if isDirectory then "/api/v1/releases" else "/api/v1/content_files"
  match api.NewRequest (Request.buildFromS3 endpoint bucketKey) with
  | some err => ⟨none, some err, w⟩
  | none =>
    match api.Do w.sent (Request.buildFromS3 endpoint bucketKey) with
    | Except.error err => ⟨none, some err, w.send (Request.buildFromS3 endpoint bucketKey)⟩
    | Except.ok res =>
      if res.StatusCode ≠ 200 then
        ⟨none, some (statusError res.StatusCode), w.send (Request.buildFromS3 endpoint bucketKey)⟩
      else
        ⟨some res.Body.preview.val, none, w.send (Request.buildFromS3 endpoint bucketKey)⟩

/-- Method `RetrieveS3Credentials()`. -/
def RetrieveS3Credentials (api : APIClient) (w : World) : Call (Option S3Credentials) :=
  match api.NewRequest Request.credentials with
  | some err => ⟨none, some err, w⟩
  | none =>
    match api.Do w.sent Request.credentials with
    | Except.error err => ⟨none, some err, w.send Request.credentials⟩
    | Except.ok res =>
      match res.Body.preview.err with
      | some err => ⟨none, some err, w.send Request.credentials⟩
      | none =>
        ⟨some ⟨res.Body.preview.val.S3Credentials.AccessKeyID,
            res.Body.preview.val.S3Credentials.SecretAccessKey,
            res.Body.preview.val.S3Credentials.KeyPrefix,
            res.Body.preview.val.S3Credentials.BucketName⟩,
          none, w.send Request.credentials⟩

/-! ## `build.go` (package `learn`) -/

/-- The tail shared by `GetBlockByRepoName` and `CreateBlockByRepoName`:
`if len(blockResp.Blocks) == 1 { return blockResp.Blocks[0], nil }; return Block{}, nil`. -/
def singleBlock (blocks : List Block) : Block :=
  match blocks with
  | [b] => b
  | _ => Block.zero

/-- Method `GetBlockByRepoName(repoName)`. -/
def GetBlockByRepoName (api : APIClient) (repoName : String) (w : World) : Call Block :=
  match api.urlParse with
  | some _ => ⟨Block.zero, some "unable to parse Learn remote", w⟩
  | none =>
    match api.NewRequest (Request.findBlock repoName) with
    | some err => ⟨Block.zero, some err, w⟩
    | none =>
      match api.Do w.sent (Request.findBlock repoName) with
      | Except.error err => ⟨Block.zero, some err, w.send (Request.findBlock repoName)⟩
      | Except.ok res =>
        if res.StatusCode ≠ 200 then
          ⟨Block.zero, some (statusError res.StatusCode), w.send (Request.findBlock repoName)⟩
        else
          match res.Body.blocks.err with
          | some err => ⟨Block.zero, some err, w.send (Request.findBlock repoName)⟩
          | none =>
            ⟨singleBlock res.Body.blocks.val.Blocks, none, w.send (Request.findBlock repoName)⟩

/-- Method `CreateBlockByRepoName(repoName)`. Marshalling the `BlockPost`
payload cannot fail. -/
def CreateBlockByRepoName (api : APIClient) (repoName : String) (w : World) : Call Block :=
  match api.NewRequest (Request.createBlock repoName) with
  | some err => ⟨Block.zero, some err, w⟩
  | none =>
    match api.Do w.sent (Request.createBlock repoName) with
    | Except.error err => ⟨Block.zero, some err, w.send (Request.createBlock repoName)⟩
    | Except.ok res =>
      if res.StatusCode ≠ 200 then
        ⟨Block.zero, some (statusError res.StatusCode), w.send (Request.createBlock repoName)⟩
      else
        match res.Body.blocks.err with
        | some err => ⟨Block.zero, some err, w.send (Request.createBlock repoName)⟩
        | none =>
          ⟨singleBlock res.Body.blocks.val.Blocks, none, w.send (Request.createBlock repoName)⟩

/-- Method `CreateMasterRelease(blockID)`. -/
def CreateMasterRelease (api : APIClient) (blockID : Int) (w : World) : Call Int :=
  match api.NewRequest (Request.createRelease blockID) with
  | some err => ⟨0, some err, w⟩
  | none =>
    match api.Do w.sent (Request.createRelease blockID) with
    | Except.error err => ⟨0, some err, w.send (Request.createRelease blockID)⟩
    | Except.ok res =>
      if res.StatusCode ≠ 200 then
        ⟨0, some (statusError res.StatusCode), w.send (Request.createRelease blockID)⟩
      else
        match res.Body.release.err with
        | some err => ⟨0, some err, w.send (Request.createRelease blockID)⟩
        | none => ⟨res.Body.release.val.ReleaseID, none, w.send (Request.createRelease blockID)⟩

/-! ## `app/cmd`: the `build` and `publish` commands -/

/-- The three shell commands of the commands: `remoteName()`,
`currentBranch()` (each a trimmed output or an error) and the error of
`pushToRemote(branch)`. -/
structure Shell where
  remoteName : Except String String
  currentBranch : Except String String
  pushToRemote : String → Option String

/-- Modelled from the spec: the methods `SendMetadataToLearn` and `NotifySlack`
of `learn.API`, which `publish` calls and whose source is not among the files
at hand. Section 4.7 describes a best-effort POST of the run benchmark whose
failure is reported to an operational channel; the model is the error the
POST returns. -/
structure Reporter where
  SendMetadataToLearn : Option String

/-- How a command ends: `exit = some c` is `os.Exit(c)`, `none` a normal
return; `released` is the block id printed by `Block %d released!`. -/
structure RunResult where
  exit : Option Nat
  released : Option Int
  world : World
  deriving DecidableEq, Repr

/-- The find-then-create sequence, `build.go` lines 50-61 and, word for word,
`publish.go` lines 54-65. The value is the variable `block` afterwards, or
`none` when the sequence ends in `os.Exit(1)`. -/
def resolveBlock (api : APIClient) (remote : String) (w : World) : Option Block × World :=
  let found := GetBlockByRepoName api remote w
  if found.err ≠ none then (none, found.world)
  else if !found.val.Exists then
    let created := CreateBlockByRepoName api remote found.world
    if created.err ≠ none then (none, created.world)
    else (some created.val, created.world)
  else (some found.val, found.world)

/-- The sequence both commands run once `block` is known, up to the poll:
branch check, push, `CreateMasterRelease(block.ID)` and
`PollForBuildResponse(releaseID, &attempts)` with `attempts = 20`
(`build.go` lines 63-95, `publish.go` lines 67-101). The value is `false` when
it ends in `os.Exit(1)`. -/
def releaseAndPoll (sh : Shell) (api : APIClient) (block : Block) (w : World) : Bool × World :=
  match sh.currentBranch with
  | Except.error _ => (false, w)
  | Except.ok branch =>
    if branch ≠ "master" then (false, w)
    else
      match sh.pushToRemote branch with
      | some _ => (false, ⟨w.sent, w.trace ++ [Event.gitPush branch]⟩)
      | none =>
        let release := CreateMasterRelease api block.ID ⟨w.sent, w.trace ++ [Event.gitPush branch]⟩
        if release.err ≠ none ∨ release.val = 0 then (false, release.world)
        else
          let polled := PollForBuildResponse api release.val 20 release.world
          if polled.err ≠ none then (false, polled.world)
          else (true, polled.world)

/-- The rest of `buildCmd.Run` once `block` is known (`build.go` lines 63-98). -/
def buildRelease (sh : Shell) (api : APIClient) (block : Block) (w : World) : RunResult :=
  let done := releaseAndPoll sh api block w
  if done.1 then ⟨none, some block.ID, done.2⟩
  else ⟨some 1, none, done.2⟩

/-- The rest of `publishCmd.Run` once `block` is known (`publish.go` lines
67-119). -/
def publishRelease (sh : Shell) (api : APIClient) (rep : Reporter) (block : Block) (w : World) :
    RunResult :=
  let done := releaseAndPoll sh api block w
  if done.1 then
    match rep.SendMetadataToLearn with
    | some err =>
      ⟨some 1, some block.ID,
        ⟨done.2.sent, done.2.trace ++ [Event.sendMetadata, Event.notifySlack err]⟩⟩
    | none => ⟨none, some block.ID, ⟨done.2.sent, done.2.trace ++ [Event.sendMetadata]⟩⟩
  else ⟨some 1, none, done.2⟩

/-- The body of `buildCmd.Run` from the remote detection on (line 40), that
is, once the API token is set and no argument was given. Printing is not
modelled. -/
def buildCmdRun (sh : Shell) (api : APIClient) (w : World) : RunResult :=
  match sh.remoteName with
  | Except.error _ => ⟨some 1, none, w⟩
  | Except.ok remote =>
    if remote = "" then ⟨some 1, none, w⟩
    else
      match resolveBlock api remote w with
      | (none, w1) => ⟨some 1, none, w1⟩
      | (some block, w1) => buildRelease sh api block w1

/-- The body of `publishCmd.Run` from the remote detection on (line 44), that
is, once the API token is set and no argument was given. Printing and the
benchmark clock are not modelled. -/
def publishCmdRun (sh : Shell) (api : APIClient) (rep : Reporter) (w : World) : RunResult :=
  match sh.remoteName with
  | Except.error _ => ⟨some 1, none, w⟩
  | Except.ok remote =>
    if remote = "" then ⟨some 1, none, w⟩
    else
      match resolveBlock api remote w with
      | (none, w1) => ⟨some 1, none, w1⟩
      | (some block, w1) => publishRelease sh api rep block w1

/-! ## Vocabulary of the statements -/

/-- The event of one status fetch for `releaseID`. -/
def pollFetch (releaseID : Int) : Event := Event.request (Request.releasePolling releaseID)

/-- The effects of `k` pending poll cycles: fetch, two-second suspension, `k` times. -/
def pendingRounds (releaseID : Int) : Nat → List Event
  | 0 => []
  | k + 1 => pollFetch releaseID :: Event.sleep 2 :: pendingRounds releaseID k

/-- The status fetch handed over after `i` earlier requests is answered with
HTTP 200 and a body that decodes, without error, to status `processing` or
`pending`. -/
def AnswersPending (api : APIClient) (releaseID : Int) (i : Nat) : Prop :=
  ∃ res, api.Do i (Request.releasePolling releaseID) = Except.ok res
    ∧ res.StatusCode = 200 ∧ res.Body.preview.err = none
    ∧ (res.Body.preview.val.Status = "processing" ∨ res.Body.preview.val.Status = "pending")

/-- A body that decodes without error to the preview response `p`. -/
def previewBody (p : PreviewResponse) : Body :=
  ⟨⟨⟨[]⟩, none⟩, ⟨⟨0⟩, none⟩, ⟨p, none⟩⟩

/-- A body that decodes without error to the block list `bs`. -/
def blocksBody (bs : List Block) : Body :=
  ⟨⟨⟨bs⟩, none⟩, ⟨⟨0⟩, none⟩, ⟨PreviewResponse.zero, none⟩⟩

/-- A client whose every request can be built and is answered by `answer`. -/
def clientOf (answer : Nat → Request → Except String Response) : APIClient :=
  ⟨none, fun _ => none, answer⟩

/-- A server on which the build stays `pending` forever. -/
def alwaysPending : APIClient :=
  clientOf fun _ _ => Except.ok ⟨200, previewBody ⟨7, "", "", "pending", S3Credentials.zero⟩⟩

/-- A server that answers every status fetch with HTTP 200 and the given status. -/
def answersStatus (status : String) : APIClient :=
  clientOf fun _ _ =>
    Except.ok ⟨200, previewBody ⟨7, "https://learn/preview/7", "", status, ⟨"k", "s", "p", "b"⟩⟩⟩

/-- A server on which the build is `processing` for the first `k` requests and
which answers `last` from then on. -/
def pendingThen (k : Nat) (last : Response) : APIClient :=
  clientOf fun i _ =>
    if i < k then Except.ok ⟨200, previewBody ⟨7, "", "", "processing", S3Credentials.zero⟩⟩
    else Except.ok last

/-- A server that answers every request with the response `res`. -/
def answersAll (res : Response) : APIClient :=
  clientOf fun _ _ => Except.ok res

/-- The block the service creates in the end-to-end scenario of the spec. -/
def block42 : Block := ⟨42, "org/algebra-unit", [], "Algebra", []⟩

/-- A service that answers a find request with the block list `found` and a
create request with the block list `created`, both with HTTP 200. -/
def blockService (found created : List Block) : APIClient :=
  clientOf fun _ r =>
    match r with
    | Request.findBlock _ => Except.ok ⟨200, blocksBody found⟩
    | Request.createBlock _ => Except.ok ⟨200, blocksBody created⟩
    | _ => Except.ok ⟨200, blocksBody []⟩

/-- A body that decodes without error to the release identifier `id`. -/
def releaseBody (id : Int) : Body :=
  ⟨⟨⟨[]⟩, none⟩, ⟨⟨id⟩, none⟩, ⟨PreviewResponse.zero, none⟩⟩

/-- A finished build, as a status response body. -/
def liveBuild : PreviewResponse := ⟨7, "https://learn/p/7", "", "live", S3Credentials.zero⟩

/-- A block as it decodes from a list entry that carries no `id`. -/
def blockWithoutID : Block := ⟨0, "org/algebra-unit", [], "Algebra", []⟩

/-- A second remote block of the same repository. -/
def block43 : Block := ⟨43, "org/algebra-unit", [], "Algebra, again", []⟩

/-- A checkout of `remote` on branch `master` whose push succeeds. -/
def masterCheckout (remote : String) : Shell :=
  ⟨Except.ok remote, Except.ok "master", fun _ => none⟩

/-- The endpoint `BuildReleaseFromS3` posts to. -/
def publishEndpoint (isDirectory : Bool) : String :=
  if isDirectory then "/api/v1/releases" else "/api/v1/content_files"

/-- A body that is not valid JSON: decoding fails and leaves every target at
its zero value. -/
def invalidJSONBody : Body :=
  ⟨⟨⟨[]⟩, some "invalid character in JSON input"⟩, ⟨⟨0⟩, some "invalid character in JSON input"⟩,
    ⟨PreviewResponse.zero, some "invalid character in JSON input"⟩⟩

/-- A body on which decoding into a preview response fails with a type error
after the `errors` field has been filled, as for
`{"errors": "boom", "release_id": "x"}`. -/
def halfDecodedBody : Body :=
  ⟨⟨⟨[]⟩, none⟩, ⟨⟨0⟩, none⟩,
    ⟨⟨0, "", "boom", "", S3Credentials.zero⟩,
      some "json: cannot unmarshal string into Go struct field PreviewResponse.release_id"⟩⟩

/-- A service that answers a publish request with HTTP 201 and every other
request with HTTP 200 and the block list `[block42]`. -/
def publishAnswers201 : APIClient :=
  clientOf fun _ r =>
    match r with
    | Request.buildFromS3 _ _ => Except.ok ⟨201, previewBody liveBuild⟩
    | _ => Except.ok ⟨200, blocksBody [block42]⟩

/-! ## The build poller -/

theorem pendingRounds_count_fetch (releaseID : Int) (k : Nat) :
    (pendingRounds releaseID k).count (pollFetch releaseID) = k := by
  induction k with
  | zero => rfl
  | succ k ih =>
    simp only [pollFetch] at ih
    simp [pendingRounds, pollFetch, ih]

theorem pendingRounds_count_sleep (releaseID : Int) (k : Nat) :
    (pendingRounds releaseID k).count (Event.sleep 2) = k := by
  induction k with
  | zero => rfl
  | succ k ih => simp [pendingRounds, pollFetch, ih]

theorem decrAttempts_of_pos (a : Nat) (h1 : 1 ≤ a) (h2 : a ≤ 255) : decrAttempts a = a - 1 := by
  unfold decrAttempts; omega

/-- One pending cycle: the counter is decremented, and the poller either gives
up or suspends and polls again. -/
theorem poll_pending_step (api : APIClient) (releaseID : Int) (a : Nat) (w : World)
    (hreq : api.NewRequest (Request.releasePolling releaseID) = none)
    (hp : AnswersPending api releaseID w.sent) :
    PollForBuildResponse api releaseID a w =
      if decrAttempts a ≤ 0 then
        ⟨none, some retriesExhausted, decrAttempts a, w.send (Request.releasePolling releaseID)⟩
      else
        PollForBuildResponse api releaseID (decrAttempts a)
          ((w.send (Request.releasePolling releaseID)).sleep 2) := by
  obtain ⟨res, hdo, hcode, herr, hst⟩ := hp
  rw [PollForBuildResponse]
  simp only [hreq, hdo, hcode, herr, hst]
  simp

theorem pollMeasure_of_pos (a : Nat) (h1 : 1 ≤ a) (h2 : a ≤ 255) : pollMeasure a = a := by
  unfold pollMeasure; split_ifs <;> omega

theorem decrAttempts_iterate (k a : Nat) (hk : k ≤ a) (ha : a ≤ 255) :
    decrAttempts^[k] a = a - k := by
  induction k generalizing a with
  | zero => rfl
  | succ k ih =>
    rw [Function.iterate_succ_apply, decrAttempts_of_pos a (by omega) ha, ih (a - 1) (by omega)
      (by omega)]
    omega

/-- After `k` pending cycles, `k` below the number of decrements that bring the
budget `a` to zero, the poller is where a fresh call with the `k` times
decremented budget would be, `k` fetches and `k` suspensions later. -/
theorem poll_pending_rounds (api : APIClient) (releaseID : Int)
    (hreq : api.NewRequest (Request.releasePolling releaseID) = none) :
    ∀ (k a : Nat) (w : World), k < pollMeasure a →
      (∀ i, i < k → AnswersPending api releaseID (w.sent + i)) →
      PollForBuildResponse api releaseID a w =
        PollForBuildResponse api releaseID (decrAttempts^[k] a)
          ⟨w.sent + k, w.trace ++ pendingRounds releaseID k⟩ := by
  intro k
  induction k with
  | zero => intro a w _ _; simp [pendingRounds]
  | succ k ih =>
    intro a w hk hp
    have h0 : AnswersPending api releaseID w.sent := by simpa using hp 0 (by omega)
    have hd : ¬ decrAttempts a ≤ 0 := by
      unfold pollMeasure at hk; unfold decrAttempts; split_ifs at hk <;> omega
    have hm : k < pollMeasure (decrAttempts a) := by
      unfold pollMeasure decrAttempts at *; split_ifs at hk ⊢ <;> omega
    rw [poll_pending_step api releaseID a w hreq h0, if_neg hd, ih (decrAttempts a) _ hm]
    · simp [World.send, World.sleep, pendingRounds, pollFetch, Nat.add_assoc, Nat.add_comm 1 k]
    · intro i hi
      have := hp (i + 1) (by omega)
      simpa [World.send, World.sleep, Nat.add_assoc, Nat.add_comm 1 i] using this

/-- A status fetch answered with HTTP 200 and a decodable body whose status is
not a pending one ends the poll with that body. -/
theorem poll_accepted (api : APIClient) (releaseID : Int) (attempts : Nat)
    (w : World) (res : Response)
    (hreq : api.NewRequest (Request.releasePolling releaseID) = none)
    (hdo : api.Do w.sent (Request.releasePolling releaseID) = Except.ok res)
    (hcode : res.StatusCode = 200) (hdec : res.Body.preview.err = none)
    (h1 : res.Body.preview.val.Status ≠ "pending")
    (h2 : res.Body.preview.val.Status ≠ "processing") :
    PollForBuildResponse api releaseID attempts w
      = ⟨some res.Body.preview.val, none, attempts,
          w.send (Request.releasePolling releaseID)⟩ := by
  rw [PollForBuildResponse]
  simp only [hreq, hdo, hcode, hdec]
  simp [h1, h2]

theorem pollMeasure_pos (a : Nat) : 1 ≤ pollMeasure a := by
  unfold pollMeasure; split_ifs <;> omega

theorem pollMeasure_le (a : Nat) : pollMeasure a ≤ 256 := by
  unfold pollMeasure; split_ifs <;> omega

theorem pollMeasure_decr (a : Nat) (h : ¬ decrAttempts a ≤ 0) :
    pollMeasure (decrAttempts a) + 1 ≤ pollMeasure a := by
  unfold pollMeasure decrAttempts at *; split_ifs <;> omega

/-- Whatever the server answers, a call of the poller only appends status
fetches and two-second suspensions, and at most `pollMeasure a` fetches. -/
theorem poll_effects (api : APIClient) (releaseID : Int) :
    ∀ (n a : Nat) (w : World), pollMeasure a ≤ n →
      ∃ t, (PollForBuildResponse api releaseID a w).world.trace = w.trace ++ t
        ∧ t.count (pollFetch releaseID) ≤ pollMeasure a
        ∧ (PollForBuildResponse api releaseID a w).world.sent
            = w.sent + t.count (pollFetch releaseID)
        ∧ ∀ e ∈ t, e = pollFetch releaseID ∨ e = Event.sleep 2 := by
  intro n
  induction n with
  | zero => intro a w h; have := pollMeasure_pos a; omega
  | succ n ih =>
    intro a w hn
    have hpos := pollMeasure_pos a
    rw [PollForBuildResponse]
    split
    · exact ⟨[], by simp, by simp, by simp, by simp⟩
    · split
      · exact ⟨[pollFetch releaseID], by simp [World.send, pollFetch], by simpa using hpos,
          by simp [World.send], by simp⟩
      · split
        · exact ⟨[pollFetch releaseID], by simp [World.send, pollFetch], by simpa using hpos,
            by simp [World.send], by simp⟩
        · split
          · exact ⟨[pollFetch releaseID], by simp [World.send, pollFetch], by simpa using hpos,
              by simp [World.send], by simp⟩
          · split
            · split
              · exact ⟨[pollFetch releaseID], by simp [World.send, pollFetch],
                  by simpa using hpos, by simp [World.send], by simp⟩
              · rename_i hd
                have hm := pollMeasure_decr a hd
                obtain ⟨t, ht, hc, hs, hall⟩ :=
                  ih (decrAttempts a) ((w.send (Request.releasePolling releaseID)).sleep 2)
                    (by omega)
                refine ⟨pollFetch releaseID :: Event.sleep 2 :: t, ?_, ?_, ?_, ?_⟩
                · rw [ht]; simp [World.send, World.sleep, pollFetch]
                · simp [pollFetch] at hc ⊢; omega
                · rw [hs]; simp [World.send, World.sleep, pollFetch]; omega
                · intro e he
                  simp only [List.mem_cons] at he
                  rcases he with rfl | rfl | he
                  · exact Or.inl rfl
                  · exact Or.inr rfl
                  · exact hall e he
            · exact ⟨[pollFetch releaseID], by simp [World.send, pollFetch],
                by simpa using hpos, by simp [World.send], by simp⟩

/-- C1. Build poller, exhaustion: with an attempts budget `N`, `1 ≤ N ≤ 255`,
and a server that answers every status fetch with HTTP 200 and a decodable
body of status `pending` or `processing`, the poller returns no response and
the exhausted-retries error after exactly `N` fetches separated by exactly
`N - 1` two-second suspensions; no further fetch is made. -/
theorem poll_all_pending_exhausts (api : APIClient) (releaseID : Int) (N : Nat) (w : World)
    (hN1 : 1 ≤ N) (hN2 : N ≤ 255)
    (hreq : api.NewRequest (Request.releasePolling releaseID) = none)
    (hp : ∀ i, i < N → AnswersPending api releaseID (w.sent + i)) :
    PollForBuildResponse api releaseID N w
        = ⟨none, some retriesExhausted, 0,
            ⟨w.sent + N, w.trace ++ (pendingRounds releaseID (N - 1) ++ [pollFetch releaseID])⟩⟩
      ∧ (pendingRounds releaseID (N - 1) ++ [pollFetch releaseID]).count (pollFetch releaseID) = N
      ∧ (pendingRounds releaseID (N - 1) ++ [pollFetch releaseID]).count (Event.sleep 2)
          = N - 1 := by
  refine ⟨?_, ?_, ?_⟩
  · rw [poll_pending_rounds api releaseID hreq (N - 1) N w
      (by rw [pollMeasure_of_pos N hN1 hN2]; omega) (fun i hi => hp i (by omega))]
    have hlast : AnswersPending api releaseID (w.sent + (N - 1)) := hp (N - 1) (by omega)
    have e1 : N - (N - 1) = 1 := by omega
    rw [decrAttempts_iterate (N - 1) N (by omega) hN2, e1,
      poll_pending_step api releaseID 1 _ hreq hlast]
    have e2 : w.sent + (N - 1) + 1 = w.sent + N := by omega
    simp [decrAttempts, World.send, pollFetch, e2]
  · rw [List.count_append, pendingRounds_count_fetch]
    simp; omega
  · rw [List.count_append, pendingRounds_count_sleep]
    simp [pollFetch]

/-- Witness of C1 at `N = 3` on the forever-pending server. -/
theorem poll_all_pending_exhausts_witness :
    PollForBuildResponse alwaysPending 7 3 ⟨0, []⟩
        = ⟨none, some retriesExhausted, 0,
            ⟨3, [pollFetch 7, Event.sleep 2, pollFetch 7, Event.sleep 2, pollFetch 7]⟩⟩
      ∧ (pendingRounds 7 (3 - 1) ++ [pollFetch 7]).count (pollFetch 7) = 3
      ∧ (pendingRounds 7 (3 - 1) ++ [pollFetch 7]).count (Event.sleep 2) = 3 - 1 :=
  poll_all_pending_exhausts alwaysPending 7 3 ⟨0, []⟩ (by decide) (by decide) rfl
    (fun _ _ => ⟨_, rfl, rfl, rfl, Or.inr rfl⟩)

/-- C2. Build poller, terminal status on the first fetch: whatever the budget,
when the first fetch is answered with HTTP 200 and a decodable body whose
status is neither `pending` nor `processing` (the comparison is exact, so the
empty string and other spellings are terminal), the poller returns that
decoded response, every field unchanged, with no error, after one fetch and no
suspension, and leaves the attempts budget at its initial value. -/
theorem poll_terminal_first_fetch (api : APIClient) (releaseID : Int) (attempts : Nat)
    (w : World) (res : Response)
    (hreq : api.NewRequest (Request.releasePolling releaseID) = none)
    (hdo : api.Do w.sent (Request.releasePolling releaseID) = Except.ok res)
    (hcode : res.StatusCode = 200) (hdec : res.Body.preview.err = none)
    (h1 : res.Body.preview.val.Status ≠ "pending")
    (h2 : res.Body.preview.val.Status ≠ "processing") :
    PollForBuildResponse api releaseID attempts w
      = ⟨some res.Body.preview.val, none, attempts,
          ⟨w.sent + 1, w.trace ++ [pollFetch releaseID]⟩⟩ :=
  poll_accepted api releaseID attempts w res hreq hdo hcode hdec h1 h2

/-- Witness of C2: the statuses `live`, the empty string and `Pending`. -/
theorem poll_terminal_first_fetch_witness :
    PollForBuildResponse (answersStatus "live") 7 20 ⟨0, []⟩
        = ⟨some ⟨7, "https://learn/preview/7", "", "live", ⟨"k", "s", "p", "b"⟩⟩, none, 20,
            ⟨1, [pollFetch 7]⟩⟩
      ∧ PollForBuildResponse (answersStatus "") 7 0 ⟨0, []⟩
        = ⟨some ⟨7, "https://learn/preview/7", "", "", ⟨"k", "s", "p", "b"⟩⟩, none, 0,
            ⟨1, [pollFetch 7]⟩⟩
      ∧ PollForBuildResponse (answersStatus "Pending") 7 1 ⟨0, []⟩
        = ⟨some ⟨7, "https://learn/preview/7", "", "Pending", ⟨"k", "s", "p", "b"⟩⟩, none, 1,
            ⟨1, [pollFetch 7]⟩⟩ :=
  ⟨poll_terminal_first_fetch (answersStatus "live") 7 20 ⟨0, []⟩ _ rfl rfl rfl rfl
      (by decide) (by decide),
    poll_terminal_first_fetch (answersStatus "") 7 0 ⟨0, []⟩ _ rfl rfl rfl rfl
      (by decide) (by decide),
    poll_terminal_first_fetch (answersStatus "Pending") 7 1 ⟨0, []⟩ _ rfl rfl rfl rfl
      (by decide) (by decide)⟩

theorem poll_rejected (api : APIClient) (releaseID : Int) (a : Nat) (w : World) (res : Response)
    (hreq : api.NewRequest (Request.releasePolling releaseID) = none)
    (hdo : api.Do w.sent (Request.releasePolling releaseID) = Except.ok res)
    (hcode : res.StatusCode ≠ 200) :
    PollForBuildResponse api releaseID a w
      = ⟨none, some (statusBodyError res.StatusCode res.Body.preview.val.Errors), a,
          w.send (Request.releasePolling releaseID)⟩ := by
  rw [PollForBuildResponse]
  simp only [hreq, hdo]
  simp [hcode]

/-- C3 as stated fails: the `errors` text of the message is not empty whenever
the body is not decodable. Decoding the body of an HTTP 500 response fails
with a type error after filling `errors`; the poller drops that error and
puts the field into the message. -/
theorem poll_rejected_undecodable_body_keeps_errors :
    halfDecodedBody.preview.err ≠ none
      ∧ PollForBuildResponse (answersAll ⟨500, halfDecodedBody⟩) 7 20 ⟨0, []⟩
        = ⟨none, some "Error: response status: 500, response body: boom", 20,
            ⟨1, [pollFetch 7]⟩⟩ :=
  ⟨by decide,
    poll_rejected (answersAll ⟨500, halfDecodedBody⟩) 7 20 ⟨0, []⟩ ⟨500, halfDecodedBody⟩
      rfl rfl (by decide)⟩

/-- C3, amended. Build poller, rejected status fetch: whatever the budget `a`
and at whichever poll cycle (after `k` pending cycles, `k` below the number of
decrements that exhaust `a`), a status response whose HTTP status is not 2xx
makes the poller return at once an error and no response. The budget is the
one the `k` pending cycles left, not decremented again; the failing fetch is
the last effect, with no suspension and no fetch after it. The message is
built from the numeric status code and the `errors` field as decoding left it
in the response, whether or not decoding returned an error; for a body that
is not valid JSON, on which decoding fails and leaves the response at its zero
value, that text is empty. -/
theorem poll_rejected_status (api : APIClient) (releaseID : Int) (a k : Nat) (w : World)
    (res : Response) (hk : k < pollMeasure a)
    (hreq : api.NewRequest (Request.releasePolling releaseID) = none)
    (hp : ∀ i, i < k → AnswersPending api releaseID (w.sent + i))
    (hdo : api.Do (w.sent + k) (Request.releasePolling releaseID) = Except.ok res)
    (hcode : ¬ (200 ≤ res.StatusCode ∧ res.StatusCode ≤ 299)) :
    PollForBuildResponse api releaseID a w
        = ⟨none, some (statusBodyError res.StatusCode res.Body.preview.val.Errors),
            decrAttempts^[k] a,
            ⟨w.sent + k + 1, w.trace ++ (pendingRounds releaseID k ++ [pollFetch releaseID])⟩⟩
      ∧ statusBodyError res.StatusCode res.Body.preview.val.Errors
          = "Error: response status: " ++ toString res.StatusCode ++ ", response body: "
              ++ res.Body.preview.val.Errors
      ∧ (∀ e, res.Body.preview = ⟨PreviewResponse.zero, some e⟩ →
          PollForBuildResponse api releaseID a w
            = ⟨none,
                some ("Error: response status: " ++ toString res.StatusCode
                  ++ ", response body: "),
                decrAttempts^[k] a,
                ⟨w.sent + k + 1,
                  w.trace ++ (pendingRounds releaseID k ++ [pollFetch releaseID])⟩⟩) := by
  have hne : res.StatusCode ≠ 200 := by omega
  have h : PollForBuildResponse api releaseID a w
      = ⟨none, some (statusBodyError res.StatusCode res.Body.preview.val.Errors),
          decrAttempts^[k] a,
          ⟨w.sent + k + 1,
            w.trace ++ (pendingRounds releaseID k ++ [pollFetch releaseID])⟩⟩ := by
    rw [poll_pending_rounds api releaseID hreq k a w hk hp,
      poll_rejected api releaseID _ _ res hreq hdo hne]
    simp [World.send, pollFetch]
  refine ⟨h, rfl, fun e he => ?_⟩
  rw [h, he]
  simp [statusBodyError, PreviewResponse.zero]

/-- Witness of the amended C3: HTTP 503 on the third status fetch of a budget
of 20, with a body that decodes and with a body that is not valid JSON. -/
theorem poll_rejected_status_witness :
    PollForBuildResponse
        (pendingThen 2 ⟨503, previewBody ⟨0, "", "boom", "", S3Credentials.zero⟩⟩) 7 20 ⟨0, []⟩
        = ⟨none, some "Error: response status: 503, response body: boom", 18,
            ⟨3, [pollFetch 7, Event.sleep 2, pollFetch 7, Event.sleep 2, pollFetch 7]⟩⟩
      ∧ PollForBuildResponse (pendingThen 2 ⟨503, invalidJSONBody⟩) 7 20 ⟨0, []⟩
        = ⟨none, some "Error: response status: 503, response body: ", 18,
            ⟨3, [pollFetch 7, Event.sleep 2, pollFetch 7, Event.sleep 2, pollFetch 7]⟩⟩ :=
  ⟨(poll_rejected_status
      (pendingThen 2 ⟨503, previewBody ⟨0, "", "boom", "", S3Credentials.zero⟩⟩) 7 20 2 ⟨0, []⟩
      ⟨503, previewBody ⟨0, "", "boom", "", S3Credentials.zero⟩⟩ (by decide) rfl
      (fun i hi => ⟨_, if_pos (by simpa using hi), rfl, rfl, Or.inl rfl⟩) rfl (by decide)).1,
    (poll_rejected_status (pendingThen 2 ⟨503, invalidJSONBody⟩) 7 20 2 ⟨0, []⟩
      ⟨503, invalidJSONBody⟩ (by decide) rfl
      (fun i hi => ⟨_, if_pos (by simpa using hi), rfl, rfl, Or.inl rfl⟩) rfl
      (by decide)).2.2 _ rfl⟩

/-- C8. Build poller, step behaviour: with a budget `N`, `1 ≤ N ≤ 255`, and
`k < N`, when the first `k` status fetches answer HTTP 200 with status
`pending` or `processing` and fetch `k + 1` answers HTTP 200 with any other
status, the poller makes exactly `k + 1` fetches and `k` two-second
suspensions, alternating fetch, suspension, fetch; every pending response
costs one attempt, so the budget is `N - k` on return; and the value returned
is the decoded response of fetch `k + 1`, with no error. -/
theorem poll_terminal_after_pending (api : APIClient) (releaseID : Int) (N k : Nat) (w : World)
    (res : Response) (hN1 : 1 ≤ N) (hN2 : N ≤ 255) (hk : k < N)
    (hreq : api.NewRequest (Request.releasePolling releaseID) = none)
    (hp : ∀ i, i < k → AnswersPending api releaseID (w.sent + i))
    (hdo : api.Do (w.sent + k) (Request.releasePolling releaseID) = Except.ok res)
    (hcode : res.StatusCode = 200) (hdec : res.Body.preview.err = none)
    (h1 : res.Body.preview.val.Status ≠ "pending")
    (h2 : res.Body.preview.val.Status ≠ "processing") :
    PollForBuildResponse api releaseID N w
        = ⟨some res.Body.preview.val, none, N - k,
            ⟨w.sent + k + 1, w.trace ++ (pendingRounds releaseID k ++ [pollFetch releaseID])⟩⟩
      ∧ (pendingRounds releaseID k ++ [pollFetch releaseID]).count (pollFetch releaseID) = k + 1
      ∧ (pendingRounds releaseID k ++ [pollFetch releaseID]).count (Event.sleep 2) = k := by
  refine ⟨?_, ?_, ?_⟩
  · rw [poll_pending_rounds api releaseID hreq k N w
      (by rw [pollMeasure_of_pos N hN1 hN2]; exact hk) hp,
      decrAttempts_iterate k N (by omega) hN2,
      poll_accepted api releaseID (N - k) _ res hreq hdo hcode hdec h1 h2]
    simp [World.send, pollFetch]
  · rw [List.count_append, pendingRounds_count_fetch]
    simp
  · rw [List.count_append, pendingRounds_count_sleep]
    simp [pollFetch]

/-- Witness of C8: the scenario of the spec, two `processing` answers and then
`live`, out of a budget of 20. -/
theorem poll_terminal_after_pending_witness :
    PollForBuildResponse
        (pendingThen 2 ⟨200, previewBody ⟨7, "https://learn/p/7", "", "live", S3Credentials.zero⟩⟩)
        7 20 ⟨0, []⟩
      = ⟨some ⟨7, "https://learn/p/7", "", "live", S3Credentials.zero⟩, none, 18,
          ⟨3, [pollFetch 7, Event.sleep 2, pollFetch 7, Event.sleep 2, pollFetch 7]⟩⟩ :=
  (poll_terminal_after_pending
    (pendingThen 2 ⟨200, previewBody ⟨7, "https://learn/p/7", "", "live", S3Credentials.zero⟩⟩)
    7 20 2 ⟨0, []⟩
    ⟨200, previewBody ⟨7, "https://learn/p/7", "", "live", S3Credentials.zero⟩⟩
    (by decide) (by decide) (by decide) rfl
    (fun i hi => ⟨_, if_pos (by simpa using hi), rfl, rfl, Or.inl rfl⟩) rfl rfl rfl
    (by decide) (by decide)).1

theorem decrAttempts_iterate_zero : decrAttempts^[255] 0 = 1 := by
  have h : decrAttempts^[255] 0 = decrAttempts^[254] (decrAttempts 0) := by
    rw [← Function.iterate_succ_apply]
  rw [h, show decrAttempts 0 = 255 from rfl, decrAttempts_iterate 254 255 (by omega) (by omega)]

/-- C9. Build poller, termination under 8-bit wrap-around. The poller is a
total function (its recursion is justified by `pollMeasure`), and for every
initial budget in `0..255` and every behaviour of the server a call makes at
most 256 status fetches (at most `a` of them when the budget `a` is not 0).
The bound is attained at budget 0: the first pending
response takes the counter from 0 to 255, the check `<= 0` does not fire, and
against an always-pending server exactly 256 fetches are made before the
exhausted-retries error is returned. -/
theorem poll_at_most_256_fetches (api : APIClient) (releaseID : Int) (a : Nat) (w : World)
    (ha : a ≤ 255) :
    (∃ t, (PollForBuildResponse api releaseID a w).world.trace = w.trace ++ t
        ∧ (PollForBuildResponse api releaseID a w).world.sent
            = w.sent + t.count (pollFetch releaseID)
        ∧ t.count (pollFetch releaseID) ≤ 256
        ∧ (1 ≤ a → t.count (pollFetch releaseID) ≤ a))
      ∧ decrAttempts 0 = 255 ∧ ¬ (decrAttempts 0 ≤ 0)
      ∧ (api.NewRequest (Request.releasePolling releaseID) = none →
          (∀ i, i < 256 → AnswersPending api releaseID (w.sent + i)) →
          PollForBuildResponse api releaseID 0 w
              = ⟨none, some retriesExhausted, 0,
                  ⟨w.sent + 256,
                    w.trace ++ (pendingRounds releaseID 255 ++ [pollFetch releaseID])⟩⟩
            ∧ (pendingRounds releaseID 255 ++ [pollFetch releaseID]).count (pollFetch releaseID)
                = 256) := by
  refine ⟨?_, rfl, by decide, ?_⟩
  · obtain ⟨t, ht, hc, hs, _⟩ := poll_effects api releaseID (pollMeasure a) a w (le_refl _)
    exact ⟨t, ht, hs, le_trans hc (pollMeasure_le a),
      fun h1 => by rw [pollMeasure_of_pos a h1 ha] at hc; exact hc⟩
  · intro hreq hp
    refine ⟨?_, ?_⟩
    · rw [poll_pending_rounds api releaseID hreq 255 0 w (by decide)
        (fun i hi => hp i (by omega)), decrAttempts_iterate_zero,
        poll_pending_step api releaseID 1 _ hreq (hp 255 (by omega))]
      simp [decrAttempts, World.send, pollFetch]
    · rw [List.count_append, pendingRounds_count_fetch]
      simp

/-- Witness of C9: budget 0 against the forever-pending server. -/
theorem poll_at_most_256_fetches_witness :
    PollForBuildResponse alwaysPending 7 0 ⟨0, []⟩
        = ⟨none, some retriesExhausted, 0, ⟨256, pendingRounds 7 255 ++ [pollFetch 7]⟩⟩
      ∧ (pendingRounds 7 255 ++ [pollFetch 7]).count (pollFetch 7) = 256 :=
  (poll_at_most_256_fetches alwaysPending 7 0 ⟨0, []⟩ (by decide)).2.2.2 rfl
    (fun _ _ => ⟨_, rfl, rfl, rfl, Or.inr rfl⟩)

/-! ## The five status checks and the credential fetch -/

theorem find_rejected (api : APIClient) (repoName : String) (w : World) (res : Response)
    (hparse : api.urlParse = none) (hreq : api.NewRequest (Request.findBlock repoName) = none)
    (hdo : api.Do w.sent (Request.findBlock repoName) = Except.ok res)
    (hcode : res.StatusCode ≠ 200) :
    GetBlockByRepoName api repoName w
      = ⟨Block.zero, some (statusError res.StatusCode), w.send (Request.findBlock repoName)⟩ := by
  simp [GetBlockByRepoName, hparse, hreq, hdo, hcode]

theorem find_accepted (api : APIClient) (repoName : String) (w : World) (res : Response)
    (hparse : api.urlParse = none) (hreq : api.NewRequest (Request.findBlock repoName) = none)
    (hdo : api.Do w.sent (Request.findBlock repoName) = Except.ok res)
    (hcode : res.StatusCode = 200) (hdec : res.Body.blocks.err = none) :
    GetBlockByRepoName api repoName w
      = ⟨singleBlock res.Body.blocks.val.Blocks, none, w.send (Request.findBlock repoName)⟩ := by
  simp [GetBlockByRepoName, hparse, hreq, hdo, hcode, hdec]

theorem create_rejected (api : APIClient) (repoName : String) (w : World) (res : Response)
    (hreq : api.NewRequest (Request.createBlock repoName) = none)
    (hdo : api.Do w.sent (Request.createBlock repoName) = Except.ok res)
    (hcode : res.StatusCode ≠ 200) :
    CreateBlockByRepoName api repoName w
      = ⟨Block.zero, some (statusError res.StatusCode),
          w.send (Request.createBlock repoName)⟩ := by
  simp [CreateBlockByRepoName, hreq, hdo, hcode]

theorem create_accepted (api : APIClient) (repoName : String) (w : World) (res : Response)
    (hreq : api.NewRequest (Request.createBlock repoName) = none)
    (hdo : api.Do w.sent (Request.createBlock repoName) = Except.ok res)
    (hcode : res.StatusCode = 200) (hdec : res.Body.blocks.err = none) :
    CreateBlockByRepoName api repoName w
      = ⟨singleBlock res.Body.blocks.val.Blocks, none,
          w.send (Request.createBlock repoName)⟩ := by
  simp [CreateBlockByRepoName, hreq, hdo, hcode, hdec]

theorem create_world (api : APIClient) (repoName : String) (w : World)
    (hreq : api.NewRequest (Request.createBlock repoName) = none) :
    (CreateBlockByRepoName api repoName w).world = w.send (Request.createBlock repoName) := by
  unfold CreateBlockByRepoName
  simp only [hreq]
  split
  · rfl
  · split
    · rfl
    · split <;> rfl

theorem release_rejected (api : APIClient) (blockID : Int) (w : World) (res : Response)
    (hreq : api.NewRequest (Request.createRelease blockID) = none)
    (hdo : api.Do w.sent (Request.createRelease blockID) = Except.ok res)
    (hcode : res.StatusCode ≠ 200) :
    CreateMasterRelease api blockID w
      = ⟨0, some (statusError res.StatusCode), w.send (Request.createRelease blockID)⟩ := by
  simp [CreateMasterRelease, hreq, hdo, hcode]

theorem release_accepted (api : APIClient) (blockID : Int) (w : World) (res : Response)
    (hreq : api.NewRequest (Request.createRelease blockID) = none)
    (hdo : api.Do w.sent (Request.createRelease blockID) = Except.ok res)
    (hcode : res.StatusCode = 200) (hdec : res.Body.release.err = none) :
    CreateMasterRelease api blockID w
      = ⟨res.Body.release.val.ReleaseID, none, w.send (Request.createRelease blockID)⟩ := by
  simp [CreateMasterRelease, hreq, hdo, hcode, hdec]

theorem release_world (api : APIClient) (blockID : Int) (w : World)
    (hreq : api.NewRequest (Request.createRelease blockID) = none) :
    (CreateMasterRelease api blockID w).world = w.send (Request.createRelease blockID) := by
  unfold CreateMasterRelease
  simp only [hreq]
  split
  · rfl
  · split
    · rfl
    · split <;> rfl

theorem release_trace (api : APIClient) (blockID : Int) (w : World) :
    ∃ t, (CreateMasterRelease api blockID w).world.trace = w.trace ++ t := by
  unfold CreateMasterRelease
  split
  · exact ⟨[], by simp⟩
  · split
    · exact ⟨_, rfl⟩
    · split
      · exact ⟨_, rfl⟩
      · split <;> exact ⟨_, rfl⟩

theorem publish_rejected (api : APIClient) (bucketKey : String) (isDirectory : Bool) (w : World)
    (res : Response)
    (hreq : api.NewRequest (Request.buildFromS3 (publishEndpoint isDirectory) bucketKey) = none)
    (hdo : api.Do w.sent (Request.buildFromS3 (publishEndpoint isDirectory) bucketKey)
      = Except.ok res)
    (hcode : res.StatusCode ≠ 200) :
    BuildReleaseFromS3 api bucketKey isDirectory w
      = ⟨none, some (statusError res.StatusCode),
          w.send (Request.buildFromS3 (publishEndpoint isDirectory) bucketKey)⟩ := by
  unfold publishEndpoint at hreq hdo ⊢
  unfold BuildReleaseFromS3
  simp only [hreq, hdo]
  simp [hcode]

theorem publish_accepted (api : APIClient) (bucketKey : String) (isDirectory : Bool) (w : World)
    (res : Response)
    (hreq : api.NewRequest (Request.buildFromS3 (publishEndpoint isDirectory) bucketKey) = none)
    (hdo : api.Do w.sent (Request.buildFromS3 (publishEndpoint isDirectory) bucketKey)
      = Except.ok res)
    (hcode : res.StatusCode = 200) :
    BuildReleaseFromS3 api bucketKey isDirectory w
      = ⟨some res.Body.preview.val, none,
          w.send (Request.buildFromS3 (publishEndpoint isDirectory) bucketKey)⟩ := by
  unfold publishEndpoint at hreq hdo ⊢
  unfold BuildReleaseFromS3
  simp only [hreq, hdo, hcode]
  simp

/-- C4 (the code departs from the claim). `RetrieveS3Credentials` never reads
the HTTP status: whatever the status code, a body that decodes yields the
decoded credentials and a nil error. At HTTP 401 with the body
`{"errors": "Invalid token"}` it returns the all-empty credentials as a
success, where its five sibling operations return an error carrying the
status code; and when the body does not decode, the error returned is the one
of the decoder, without the status code. -/
theorem credentials_ignore_status :
    (∀ (code : Int) (p : PreviewResponse) (w : World),
        RetrieveS3Credentials (answersAll ⟨code, previewBody p⟩) w
          = ⟨some p.S3Credentials, none, w.send Request.credentials⟩)
      ∧ RetrieveS3Credentials
          (answersAll ⟨401, previewBody ⟨0, "", "Invalid token", "", S3Credentials.zero⟩⟩) ⟨0, []⟩
          = ⟨some S3Credentials.zero, none, ⟨1, [Event.request Request.credentials]⟩⟩
      ∧ RetrieveS3Credentials
          (answersAll ⟨500, ⟨⟨⟨[]⟩, none⟩, ⟨⟨0⟩, none⟩,
            ⟨PreviewResponse.zero, some "unexpected end of JSON input"⟩⟩⟩) ⟨0, []⟩
          = ⟨none, some "unexpected end of JSON input",
              ⟨1, [Event.request Request.credentials]⟩⟩ := by
  refine ⟨?_, ?_, ?_⟩
  · intro code p w
    simp [RetrieveS3Credentials, answersAll, clientOf, previewBody]
  · simp [RetrieveS3Credentials, answersAll, clientOf, previewBody, World.send,
      S3Credentials.zero]
  · simp [RetrieveS3Credentials, answersAll, clientOf, World.send]

/-- C7 as stated fails: a 2xx status other than 200, with a body that decodes,
is classified as a failure by each of the five operations. HTTP 201 and 204
yield the status error and the zero value, not the decoded value. -/
theorem status_2xx_other_than_200_rejected :
    GetBlockByRepoName (answersAll ⟨201, blocksBody [block42]⟩) "org/algebra-unit" ⟨0, []⟩
        = ⟨Block.zero, some "Error: response status: 201",
            ⟨1, [Event.request (Request.findBlock "org/algebra-unit")]⟩⟩
      ∧ CreateBlockByRepoName (answersAll ⟨201, blocksBody [block42]⟩) "org/algebra-unit" ⟨0, []⟩
        = ⟨Block.zero, some "Error: response status: 201",
            ⟨1, [Event.request (Request.createBlock "org/algebra-unit")]⟩⟩
      ∧ CreateMasterRelease (answersAll ⟨201, releaseBody 7⟩) 42 ⟨0, []⟩
        = ⟨0, some "Error: response status: 201",
            ⟨1, [Event.request (Request.createRelease 42)]⟩⟩
      ∧ PollForBuildResponse (answersAll ⟨204, previewBody liveBuild⟩) 7 20 ⟨0, []⟩
        = ⟨none, some "Error: response status: 204, response body: ", 20,
            ⟨1, [pollFetch 7]⟩⟩
      ∧ BuildReleaseFromS3 (answersAll ⟨201, previewBody liveBuild⟩) "preview/key" true ⟨0, []⟩
        = ⟨none, some "Error: response status: 201",
            ⟨1, [Event.request (Request.buildFromS3 "/api/v1/releases" "preview/key")]⟩⟩ := by
  refine ⟨?_, ?_, ?_, ?_, ?_⟩
  · exact find_rejected (answersAll ⟨201, blocksBody [block42]⟩) "org/algebra-unit" ⟨0, []⟩
      ⟨201, blocksBody [block42]⟩ rfl rfl rfl (by decide)
  · exact create_rejected (answersAll ⟨201, blocksBody [block42]⟩) "org/algebra-unit" ⟨0, []⟩
      ⟨201, blocksBody [block42]⟩ rfl rfl (by decide)
  · exact release_rejected (answersAll ⟨201, releaseBody 7⟩) 42 ⟨0, []⟩
      ⟨201, releaseBody 7⟩ rfl rfl (by decide)
  · exact poll_rejected (answersAll ⟨204, previewBody liveBuild⟩) 7 20 ⟨0, []⟩
      ⟨204, previewBody liveBuild⟩ rfl rfl (by decide)
  · rfl

/-- C7, amended. The five operations that check the response status classify
a response as a failure if and only if its HTTP status is not exactly 200.
For every status other than 200, other 2xx codes included, each returns the
zero value and an error built from the status code. For status 200 and a body
that decodes, each returns the decoded value and no error: the single block
of the list (the zero block when the list does not hold exactly one) for find
and create, the release identifier for create release, the decoded response
for publish, and for poll the decoded response when its status is neither
`pending` nor `processing`. Each operation is taken with the answer to its own
request only. -/
theorem status_check_is_exactly_200 (api : APIClient) (w : World) (res : Response)
    (repoName bucketKey : String) (blockID releaseID : Int) (attempts : Nat)
    (isDirectory : Bool) :
    (res.StatusCode ≠ 200 →
        (api.urlParse = none → api.NewRequest (Request.findBlock repoName) = none →
          api.Do w.sent (Request.findBlock repoName) = Except.ok res →
          GetBlockByRepoName api repoName w
            = ⟨Block.zero, some (statusError res.StatusCode),
                w.send (Request.findBlock repoName)⟩)
        ∧ (api.NewRequest (Request.createBlock repoName) = none →
          api.Do w.sent (Request.createBlock repoName) = Except.ok res →
          CreateBlockByRepoName api repoName w
            = ⟨Block.zero, some (statusError res.StatusCode),
                w.send (Request.createBlock repoName)⟩)
        ∧ (api.NewRequest (Request.createRelease blockID) = none →
          api.Do w.sent (Request.createRelease blockID) = Except.ok res →
          CreateMasterRelease api blockID w
            = ⟨0, some (statusError res.StatusCode), w.send (Request.createRelease blockID)⟩)
        ∧ (api.NewRequest (Request.releasePolling releaseID) = none →
          api.Do w.sent (Request.releasePolling releaseID) = Except.ok res →
          PollForBuildResponse api releaseID attempts w
            = ⟨none, some (statusBodyError res.StatusCode res.Body.preview.val.Errors),
                attempts, w.send (Request.releasePolling releaseID)⟩)
        ∧ (api.NewRequest (Request.buildFromS3 (publishEndpoint isDirectory) bucketKey) = none →
          api.Do w.sent (Request.buildFromS3 (publishEndpoint isDirectory) bucketKey)
              = Except.ok res →
          BuildReleaseFromS3 api bucketKey isDirectory w
            = ⟨none, some (statusError res.StatusCode),
                w.send (Request.buildFromS3 (publishEndpoint isDirectory) bucketKey)⟩))
      ∧ (res.StatusCode = 200 →
        (api.urlParse = none → api.NewRequest (Request.findBlock repoName) = none →
          api.Do w.sent (Request.findBlock repoName) = Except.ok res →
          res.Body.blocks.err = none →
          GetBlockByRepoName api repoName w
            = ⟨singleBlock res.Body.blocks.val.Blocks, none,
                w.send (Request.findBlock repoName)⟩)
        ∧ (api.NewRequest (Request.createBlock repoName) = none →
          api.Do w.sent (Request.createBlock repoName) = Except.ok res →
          res.Body.blocks.err = none →
          CreateBlockByRepoName api repoName w
            = ⟨singleBlock res.Body.blocks.val.Blocks, none,
                w.send (Request.createBlock repoName)⟩)
        ∧ (api.NewRequest (Request.createRelease blockID) = none →
          api.Do w.sent (Request.createRelease blockID) = Except.ok res →
          res.Body.release.err = none →
          CreateMasterRelease api blockID w
            = ⟨res.Body.release.val.ReleaseID, none, w.send (Request.createRelease blockID)⟩)
        ∧ (api.NewRequest (Request.releasePolling releaseID) = none →
          api.Do w.sent (Request.releasePolling releaseID) = Except.ok res →
          res.Body.preview.err = none →
          res.Body.preview.val.Status ≠ "pending" →
          res.Body.preview.val.Status ≠ "processing" →
          PollForBuildResponse api releaseID attempts w
            = ⟨some res.Body.preview.val, none, attempts,
                w.send (Request.releasePolling releaseID)⟩)
        ∧ (api.NewRequest (Request.buildFromS3 (publishEndpoint isDirectory) bucketKey) = none →
          api.Do w.sent (Request.buildFromS3 (publishEndpoint isDirectory) bucketKey)
              = Except.ok res →
          BuildReleaseFromS3 api bucketKey isDirectory w
            = ⟨some res.Body.preview.val, none,
                w.send (Request.buildFromS3 (publishEndpoint isDirectory) bucketKey)⟩)) := by
  refine ⟨fun hne => ⟨?_, ?_, ?_, ?_, ?_⟩, fun heq => ⟨?_, ?_, ?_, ?_, ?_⟩⟩
  · exact fun hparse hreq hdo => find_rejected api repoName w res hparse hreq hdo hne
  · exact fun hreq hdo => create_rejected api repoName w res hreq hdo hne
  · exact fun hreq hdo => release_rejected api blockID w res hreq hdo hne
  · exact fun hreq hdo => poll_rejected api releaseID attempts w res hreq hdo hne
  · exact fun hreq hdo => publish_rejected api bucketKey isDirectory w res hreq hdo hne
  · exact fun hparse hreq hdo hdec =>
      find_accepted api repoName w res hparse hreq hdo heq hdec
  · exact fun hreq hdo hdec => create_accepted api repoName w res hreq hdo heq hdec
  · exact fun hreq hdo hdec => release_accepted api blockID w res hreq hdo heq hdec
  · exact fun hreq hdo hdec h1 h2 =>
      poll_accepted api releaseID attempts w res hreq hdo heq hdec h1 h2
  · exact fun hreq hdo => publish_accepted api bucketKey isDirectory w res hreq hdo heq

/-- Witness of the amended C7, on a service that answers a publish request
with HTTP 201 and every other request with HTTP 200: find decodes its answer,
publish is rejected. -/
theorem status_check_is_exactly_200_witness :
    GetBlockByRepoName publishAnswers201 "org/algebra-unit" ⟨0, []⟩
        = ⟨block42, none, ⟨1, [Event.request (Request.findBlock "org/algebra-unit")]⟩⟩
      ∧ BuildReleaseFromS3 publishAnswers201 "preview/key" false ⟨0, []⟩
        = ⟨none, some "Error: response status: 201",
            ⟨1, [Event.request (Request.buildFromS3 "/api/v1/content_files" "preview/key")]⟩⟩ :=
  ⟨(status_check_is_exactly_200 publishAnswers201 ⟨0, []⟩ ⟨200, blocksBody [block42]⟩
      "org/algebra-unit" "preview/key" 42 7 20 false).2 rfl |>.1 rfl rfl rfl rfl,
    (status_check_is_exactly_200 publishAnswers201 ⟨0, []⟩ ⟨201, previewBody liveBuild⟩
      "org/algebra-unit" "preview/key" 42 7 20 false).1 (by decide) |>.2.2.2.2 rfl rfl⟩

/-! ## The block resolver inside the two commands -/

theorem poll_trace (api : APIClient) (releaseID : Int) (a : Nat) (w : World) :
    ∃ t, (PollForBuildResponse api releaseID a w).world.trace = w.trace ++ t := by
  obtain ⟨t, ht, _⟩ := poll_effects api releaseID (pollMeasure a) a w (le_refl _)
  exact ⟨t, ht⟩

theorem releaseAndPoll_trace (sh : Shell) (api : APIClient) (block : Block) (w : World) :
    ∃ t, (releaseAndPoll sh api block w).2.trace = w.trace ++ t := by
  unfold releaseAndPoll
  cases sh.currentBranch with
  | error e => exact ⟨[], by simp⟩
  | ok branch =>
    dsimp only
    by_cases hm : branch ≠ "master"
    · rw [if_pos hm]; exact ⟨[], by simp⟩
    · rw [if_neg hm]
      cases sh.pushToRemote branch with
      | some e => exact ⟨_, rfl⟩
      | none =>
        dsimp only
        obtain ⟨t1, h1⟩ := release_trace api block.ID ⟨w.sent, w.trace ++ [Event.gitPush branch]⟩
        obtain ⟨t2, h2⟩ := poll_trace api
          (CreateMasterRelease api block.ID ⟨w.sent, w.trace ++ [Event.gitPush branch]⟩).val 20
          (CreateMasterRelease api block.ID ⟨w.sent, w.trace ++ [Event.gitPush branch]⟩).world
        split
        · exact ⟨_, by rw [h1, List.append_assoc]⟩
        · split
          · exact ⟨_, by rw [h2, h1, List.append_assoc, List.append_assoc]⟩
          · exact ⟨_, by rw [h2, h1, List.append_assoc, List.append_assoc]⟩

/-- On branch `master` with a successful push, the release is requested for
the identifier of the block handed over. -/
theorem releaseAndPoll_release (sh : Shell) (api : APIClient) (block : Block) (w : World)
    (hbranch : sh.currentBranch = Except.ok "master") (hpush : sh.pushToRemote "master" = none)
    (hreq : api.NewRequest (Request.createRelease block.ID) = none) :
    ∃ t, (releaseAndPoll sh api block w).2.trace
      = w.trace ++ Event.gitPush "master" :: Event.request (Request.createRelease block.ID)
          :: t := by
  unfold releaseAndPoll
  simp only [hbranch, hpush]
  have hw := release_world api block.ID ⟨w.sent, w.trace ++ [Event.gitPush "master"]⟩ hreq
  rw [if_neg (by simp)]
  split
  · exact ⟨[], by rw [hw]; simp [World.send]⟩
  · obtain ⟨t2, h2⟩ := poll_trace api
      (CreateMasterRelease api block.ID ⟨w.sent, w.trace ++ [Event.gitPush "master"]⟩).val 20
      (CreateMasterRelease api block.ID ⟨w.sent, w.trace ++ [Event.gitPush "master"]⟩).world
    split
    · exact ⟨t2, by rw [h2, hw]; simp [World.send]⟩
    · exact ⟨t2, by rw [h2, hw]; simp [World.send]⟩

theorem buildRelease_trace (sh : Shell) (api : APIClient) (block : Block) (w : World) :
    (buildRelease sh api block w).world.trace = (releaseAndPoll sh api block w).2.trace := by
  unfold buildRelease
  simp only
  split <;> rfl

theorem publishRelease_trace (sh : Shell) (api : APIClient) (rep : Reporter) (block : Block)
    (w : World) :
    ∃ t, (publishRelease sh api rep block w).world.trace
      = (releaseAndPoll sh api block w).2.trace ++ t := by
  unfold publishRelease
  simp only
  split
  · split
    · exact ⟨_, rfl⟩
    · exact ⟨_, rfl⟩
  · exact ⟨[], by simp⟩

/-- Both commands run the find-then-create sequence first and go on with the
block it yields. -/
theorem run_after_resolve (sh : Shell) (api : APIClient) (rep : Reporter) (remote : String)
    (w w1 : World) (b : Block)
    (hremote : sh.remoteName = Except.ok remote) (hne : remote ≠ "")
    (hres : resolveBlock api remote w = (some b, w1)) :
    buildCmdRun sh api w = buildRelease sh api b w1
      ∧ publishCmdRun sh api rep w = publishRelease sh api rep b w1 := by
  simp [buildCmdRun, publishCmdRun, hremote, hne, hres]

/-- The effects of either command start with those of the find-then-create
sequence. -/
theorem run_trace (sh : Shell) (api : APIClient) (rep : Reporter) (remote : String) (w : World)
    (hremote : sh.remoteName = Except.ok remote) (hne : remote ≠ "") :
    (∃ t, (buildCmdRun sh api w).world.trace = (resolveBlock api remote w).2.trace ++ t)
      ∧ (∃ t, (publishCmdRun sh api rep w).world.trace
          = (resolveBlock api remote w).2.trace ++ t) := by
  rcases hres : resolveBlock api remote w with ⟨_ | b, w1⟩
  · simp [buildCmdRun, publishCmdRun, hremote, hne, hres]
  · obtain ⟨hb, hp⟩ := run_after_resolve sh api rep remote w w1 b hremote hne hres
    obtain ⟨t, ht⟩ := releaseAndPoll_trace sh api b w1
    obtain ⟨t2, ht2⟩ := publishRelease_trace sh api rep b w1
    rw [hb, hp, buildRelease_trace, ht2, ht]
    exact ⟨⟨t, rfl⟩, ⟨t ++ t2, by simp⟩⟩

/-- The release request of either command carries the identifier of the block
the find-then-create sequence yielded. -/
theorem release_uses_block (sh : Shell) (api : APIClient) (rep : Reporter) (b : Block)
    (w : World)
    (hbranch : sh.currentBranch = Except.ok "master") (hpush : sh.pushToRemote "master" = none)
    (hreq : api.NewRequest (Request.createRelease b.ID) = none) :
    (∃ t, (buildRelease sh api b w).world.trace
        = w.trace ++ Event.gitPush "master" :: Event.request (Request.createRelease b.ID) :: t)
      ∧ (∃ t, (publishRelease sh api rep b w).world.trace
        = w.trace ++ Event.gitPush "master" :: Event.request (Request.createRelease b.ID)
            :: t) := by
  obtain ⟨t, ht⟩ := releaseAndPoll_release sh api b w hbranch hpush hreq
  obtain ⟨t2, ht2⟩ := publishRelease_trace sh api rep b w
  rw [buildRelease_trace, ht2, ht]
  exact ⟨⟨t, rfl⟩, ⟨t ++ t2, by simp⟩⟩

/-- C5. Block resolver, no matching block: when the find request is answered
with HTTP 200 and an empty `blocks` list and the create request with HTTP 200
and exactly one block, the sequence issues exactly one find request and then
exactly one create request, and the block it yields is the block decoded from
the create response. Both commands go on with that block, and the release
request they send carries its identifier. -/
theorem resolve_creates_missing_block (api : APIClient) (remote : String) (w : World)
    (findRes createRes : Response) (b : Block)
    (hparse : api.urlParse = none)
    (hreqF : api.NewRequest (Request.findBlock remote) = none)
    (hreqC : api.NewRequest (Request.createBlock remote) = none)
    (hfind : api.Do w.sent (Request.findBlock remote) = Except.ok findRes)
    (hf200 : findRes.StatusCode = 200) (hfdec : findRes.Body.blocks = ⟨⟨[]⟩, none⟩)
    (hcreate : api.Do (w.sent + 1) (Request.createBlock remote) = Except.ok createRes)
    (hc200 : createRes.StatusCode = 200) (hcdec : createRes.Body.blocks = ⟨⟨[b]⟩, none⟩) :
    resolveBlock api remote w
        = (some b, ⟨w.sent + 2, w.trace ++ [Event.request (Request.findBlock remote),
            Event.request (Request.createBlock remote)]⟩)
      ∧ (∀ (sh : Shell) (rep : Reporter), sh.remoteName = Except.ok remote → remote ≠ "" →
          buildCmdRun sh api w
              = buildRelease sh api b ⟨w.sent + 2, w.trace
                  ++ [Event.request (Request.findBlock remote),
                    Event.request (Request.createBlock remote)]⟩
            ∧ publishCmdRun sh api rep w
              = publishRelease sh api rep b ⟨w.sent + 2, w.trace
                  ++ [Event.request (Request.findBlock remote),
                    Event.request (Request.createBlock remote)]⟩)
      ∧ (∀ (sh : Shell) (rep : Reporter) (w1 : World),
          sh.currentBranch = Except.ok "master" → sh.pushToRemote "master" = none →
          api.NewRequest (Request.createRelease b.ID) = none →
          (∃ t, (buildRelease sh api b w1).world.trace
              = w1.trace ++ Event.gitPush "master"
                  :: Event.request (Request.createRelease b.ID) :: t)
            ∧ (∃ t, (publishRelease sh api rep b w1).world.trace
              = w1.trace ++ Event.gitPush "master"
                  :: Event.request (Request.createRelease b.ID) :: t)) := by
  have hF := find_accepted api remote w findRes hparse hreqF hfind hf200 (by rw [hfdec])
  have hC := create_accepted api remote (w.send (Request.findBlock remote)) createRes hreqC
    (by simpa [World.send] using hcreate) hc200 (by rw [hcdec])
  have hres : resolveBlock api remote w
      = (some b, ⟨w.sent + 2, w.trace ++ [Event.request (Request.findBlock remote),
          Event.request (Request.createBlock remote)]⟩) := by
    unfold resolveBlock
    simp only [hF, hfdec, singleBlock, hC, hcdec]
    simp [Block.zero, Block.Exists, World.send]
  exact ⟨hres, fun sh rep hr hne => run_after_resolve sh api rep remote w _ b hr hne hres,
    fun sh rep w1 hb hp hq => release_uses_block sh api rep b w1 hb hp hq⟩

/-- Witness of C5: the scenario of the spec, repository `org/algebra-unit`
with no block yet and block 42 created. -/
theorem resolve_creates_missing_block_witness :
    resolveBlock (blockService [] [block42]) "org/algebra-unit" ⟨0, []⟩
      = (some block42, ⟨2, [Event.request (Request.findBlock "org/algebra-unit"),
          Event.request (Request.createBlock "org/algebra-unit")]⟩) :=
  (resolve_creates_missing_block (blockService [] [block42]) "org/algebra-unit" ⟨0, []⟩
    ⟨200, blocksBody []⟩ ⟨200, blocksBody [block42]⟩ block42 rfl rfl rfl rfl rfl rfl rfl rfl
    rfl).1

/-- C6 as stated fails: a find response with HTTP 200 and exactly one block
for the repository, decoded with identifier 0, makes the sequence issue a
create request, and the block it yields is the created one, not the one
found. -/
theorem resolve_single_block_without_id_creates :
    GetBlockByRepoName (blockService [blockWithoutID] [block42]) "org/algebra-unit" ⟨0, []⟩
        = ⟨blockWithoutID, none, ⟨1, [Event.request (Request.findBlock "org/algebra-unit")]⟩⟩
      ∧ resolveBlock (blockService [blockWithoutID] [block42]) "org/algebra-unit" ⟨0, []⟩
        = (some block42, ⟨2, [Event.request (Request.findBlock "org/algebra-unit"),
            Event.request (Request.createBlock "org/algebra-unit")]⟩) := by
  constructor <;> rfl

/-- C6, amended. Block resolver, one matching block: when the find request is
answered with HTTP 200 and a `blocks` list holding exactly one block whose
identifier is not 0, the sequence issues exactly one find request and no
create request, and the block it yields is that block. Both commands go on
with it, and the release request they send carries its identifier. -/
theorem resolve_uses_found_block (api : APIClient) (remote : String) (w : World)
    (findRes : Response) (b : Block)
    (hparse : api.urlParse = none)
    (hreqF : api.NewRequest (Request.findBlock remote) = none)
    (hfind : api.Do w.sent (Request.findBlock remote) = Except.ok findRes)
    (hf200 : findRes.StatusCode = 200) (hfdec : findRes.Body.blocks = ⟨⟨[b]⟩, none⟩)
    (hid : b.ID ≠ 0) :
    resolveBlock api remote w
        = (some b, ⟨w.sent + 1, w.trace ++ [Event.request (Request.findBlock remote)]⟩)
      ∧ (∀ (sh : Shell) (rep : Reporter), sh.remoteName = Except.ok remote → remote ≠ "" →
          buildCmdRun sh api w
              = buildRelease sh api b
                  ⟨w.sent + 1, w.trace ++ [Event.request (Request.findBlock remote)]⟩
            ∧ publishCmdRun sh api rep w
              = publishRelease sh api rep b
                  ⟨w.sent + 1, w.trace ++ [Event.request (Request.findBlock remote)]⟩)
      ∧ (∀ (sh : Shell) (rep : Reporter) (w1 : World),
          sh.currentBranch = Except.ok "master" → sh.pushToRemote "master" = none →
          api.NewRequest (Request.createRelease b.ID) = none →
          (∃ t, (buildRelease sh api b w1).world.trace
              = w1.trace ++ Event.gitPush "master"
                  :: Event.request (Request.createRelease b.ID) :: t)
            ∧ (∃ t, (publishRelease sh api rep b w1).world.trace
              = w1.trace ++ Event.gitPush "master"
                  :: Event.request (Request.createRelease b.ID) :: t)) := by
  have hF := find_accepted api remote w findRes hparse hreqF hfind hf200 (by rw [hfdec])
  have hres : resolveBlock api remote w
      = (some b, ⟨w.sent + 1, w.trace ++ [Event.request (Request.findBlock remote)]⟩) := by
    unfold resolveBlock
    simp [hF, hfdec, singleBlock, Block.Exists, World.send, hid]
  exact ⟨hres, fun sh rep hr hne => run_after_resolve sh api rep remote w _ b hr hne hres,
    fun sh rep w1 hb hp hq => release_uses_block sh api rep b w1 hb hp hq⟩

/-- Witness of the amended C6: block 42 exists for `org/algebra-unit`. -/
theorem resolve_uses_found_block_witness :
    resolveBlock (blockService [block42] []) "org/algebra-unit" ⟨0, []⟩
      = (some block42, ⟨1, [Event.request (Request.findBlock "org/algebra-unit")]⟩) :=
  (resolve_uses_found_block (blockService [block42] []) "org/algebra-unit" ⟨0, []⟩
    ⟨200, blocksBody [block42]⟩ block42 rfl rfl rfl rfl rfl (by decide)).1

/-- C10. `GetBlockByRepoName` returns the zero-valued block, of identifier 0
and for which `Exists` is false, with no error whenever the decoded `blocks`
list of an HTTP 200 response does not hold exactly one element, two or more
included. Hence the find-then-create sequence issues a create request when the
repository already has two or more matching remote blocks, and also when the
single block of the list decodes with identifier 0; in both commands the
create request follows the find request. -/
theorem find_not_single_then_create (api : APIClient) (remote : String) (w : World)
    (findRes : Response)
    (hparse : api.urlParse = none)
    (hreqF : api.NewRequest (Request.findBlock remote) = none)
    (hreqC : api.NewRequest (Request.createBlock remote) = none)
    (hfind : api.Do w.sent (Request.findBlock remote) = Except.ok findRes)
    (hf200 : findRes.StatusCode = 200) (hfdec : findRes.Body.blocks.err = none) :
    (findRes.Body.blocks.val.Blocks.length ≠ 1 →
        GetBlockByRepoName api remote w
          = ⟨Block.zero, none, w.send (Request.findBlock remote)⟩)
      ∧ Block.zero.ID = 0 ∧ Block.zero.Exists = false
      ∧ (2 ≤ findRes.Body.blocks.val.Blocks.length
            ∨ (∃ b, findRes.Body.blocks.val.Blocks = [b] ∧ b.ID = 0) →
          (resolveBlock api remote w).2
              = ⟨w.sent + 2, w.trace ++ [Event.request (Request.findBlock remote),
                  Event.request (Request.createBlock remote)]⟩
            ∧ ∀ (sh : Shell) (rep : Reporter), sh.remoteName = Except.ok remote →
                remote ≠ "" →
                (∃ t, (buildCmdRun sh api w).world.trace
                    = w.trace ++ Event.request (Request.findBlock remote)
                        :: Event.request (Request.createBlock remote) :: t)
                  ∧ (∃ t, (publishCmdRun sh api rep w).world.trace
                    = w.trace ++ Event.request (Request.findBlock remote)
                        :: Event.request (Request.createBlock remote) :: t)) := by
  have hF := find_accepted api remote w findRes hparse hreqF hfind hf200 hfdec
  have hsingle : findRes.Body.blocks.val.Blocks.length ≠ 1 →
      singleBlock findRes.Body.blocks.val.Blocks = Block.zero := by
    intro hl
    unfold singleBlock
    split
    · simp_all
    · rfl
  refine ⟨fun hl => by rw [hF, hsingle hl], rfl, rfl, fun hcase => ?_⟩
  have hnot : (singleBlock findRes.Body.blocks.val.Blocks).Exists = false := by
    rcases hcase with h2 | ⟨b, hb, h0⟩
    · rw [hsingle (by omega)]; rfl
    · rw [hb]; simp [singleBlock, Block.Exists, h0]
  have hW := create_world api remote (w.send (Request.findBlock remote)) hreqC
  have hres : (resolveBlock api remote w).2
      = ⟨w.sent + 2, w.trace ++ [Event.request (Request.findBlock remote),
          Event.request (Request.createBlock remote)]⟩ := by
    unfold resolveBlock
    simp only [hF, hnot]
    simp only [ne_eq, not_true_eq_false, if_false, Bool.not_false, if_true]
    split
    · rw [hW]; simp [World.send]
    · rw [hW]; simp [World.send]
  refine ⟨hres, fun sh rep hr hne => ?_⟩
  obtain ⟨⟨t1, h1⟩, ⟨t2, h2⟩⟩ := run_trace sh api rep remote w hr hne
  rw [h1, h2, hres]
  exact ⟨⟨t1, by simp⟩, ⟨t2, by simp⟩⟩

/-- Witness of C10: two blocks already match `org/algebra-unit`, and the
`build` command still asks for a new one. -/
theorem find_not_single_then_create_witness :
    GetBlockByRepoName (blockService [block42, block43] [block42]) "org/algebra-unit" ⟨0, []⟩
        = ⟨Block.zero, none, ⟨1, [Event.request (Request.findBlock "org/algebra-unit")]⟩⟩
      ∧ (resolveBlock (blockService [block42, block43] [block42]) "org/algebra-unit" ⟨0, []⟩).2
        = ⟨2, [Event.request (Request.findBlock "org/algebra-unit"),
            Event.request (Request.createBlock "org/algebra-unit")]⟩ :=
  ⟨(find_not_single_then_create (blockService [block42, block43] [block42]) "org/algebra-unit"
      ⟨0, []⟩ ⟨200, blocksBody [block42, block43]⟩ rfl rfl rfl rfl rfl rfl).1 (by decide),
    ((find_not_single_then_create (blockService [block42, block43] [block42]) "org/algebra-unit"
      ⟨0, []⟩ ⟨200, blocksBody [block42, block43]⟩ rfl rfl rfl rfl rfl rfl).2.2.2
      (Or.inl (by decide))).1⟩

/-! ## The content publisher -/

/-- C11. Content publisher: for every storage key, both values of
`isDirectory` and every HTTP 200 response, whatever its body and whatever
error decoding it gives, `BuildReleaseFromS3` returns a non-nil build status,
the response as decoding left it, and a nil error. The decode error is
discarded: a body that is not valid JSON, which leaves the response at its
zero value, yields the all-zero build status (release identifier 0, empty
status, empty preview URL) as a success. -/
theorem publish_discards_decode_error (api : APIClient) (bucketKey : String)
    (isDirectory : Bool) (w : World) (res : Response)
    (hreq : api.NewRequest (Request.buildFromS3 (publishEndpoint isDirectory) bucketKey) = none)
    (hdo : api.Do w.sent (Request.buildFromS3 (publishEndpoint isDirectory) bucketKey)
      = Except.ok res)
    (hcode : res.StatusCode = 200) :
    BuildReleaseFromS3 api bucketKey isDirectory w
        = ⟨some res.Body.preview.val, none,
            w.send (Request.buildFromS3 (publishEndpoint isDirectory) bucketKey)⟩
      ∧ (BuildReleaseFromS3 api bucketKey isDirectory w).val ≠ none
      ∧ (BuildReleaseFromS3 api bucketKey isDirectory w).err = none
      ∧ (∀ e, res.Body.preview = ⟨PreviewResponse.zero, some e⟩ →
          BuildReleaseFromS3 api bucketKey isDirectory w
              = ⟨some PreviewResponse.zero, none,
                  w.send (Request.buildFromS3 (publishEndpoint isDirectory) bucketKey)⟩
            ∧ PreviewResponse.zero.ReleaseID = 0 ∧ PreviewResponse.zero.Status = ""
            ∧ PreviewResponse.zero.PreviewURL = "") := by
  have h : BuildReleaseFromS3 api bucketKey isDirectory w
      = ⟨some res.Body.preview.val, none,
          w.send (Request.buildFromS3 (publishEndpoint isDirectory) bucketKey)⟩ := by
    unfold publishEndpoint at hreq hdo ⊢
    unfold BuildReleaseFromS3
    simp only [hreq, hdo, hcode]
    simp
  refine ⟨h, by rw [h]; simp, by rw [h], fun e he => ⟨by rw [h, he], rfl, rfl, rfl⟩⟩

/-- Witness of C11: HTTP 200 with a body that is not valid JSON, for a single
file and for a directory. -/
theorem publish_discards_decode_error_witness :
    BuildReleaseFromS3 (answersAll ⟨200, invalidJSONBody⟩) "preview/key" false ⟨0, []⟩
        = ⟨some PreviewResponse.zero, none,
            ⟨1, [Event.request (Request.buildFromS3 "/api/v1/content_files" "preview/key")]⟩⟩
      ∧ BuildReleaseFromS3 (answersAll ⟨200, invalidJSONBody⟩) "preview/key" true ⟨0, []⟩
        = ⟨some PreviewResponse.zero, none,
            ⟨1, [Event.request (Request.buildFromS3 "/api/v1/releases" "preview/key")]⟩⟩ :=
  ⟨(publish_discards_decode_error (answersAll ⟨200, invalidJSONBody⟩) "preview/key" false
      ⟨0, []⟩ ⟨200, invalidJSONBody⟩ rfl rfl rfl).1,
    (publish_discards_decode_error (answersAll ⟨200, invalidJSONBody⟩) "preview/key" true
      ⟨0, []⟩ ⟨200, invalidJSONBody⟩ rfl rfl rfl).1⟩

end Glearn
